import Mathlib

/-!
Verification development for the request-serving core of the saphir HTTP
server (`src/saphir/src/server.rs`).

The Rust code is shallowly embedded: stateful code becomes explicit state
passing, the `AtomicU64` in-flight counter becomes a `Nat` with explicit
wrap-around arithmetic at `2 ^ 64`, fallible code returns `Except`, and the
external capabilities consumed by the core (router, middleware chain, error
rendering) are parameters, so that every theorem quantifies over all of
their possible behaviours.  Asynchronous execution is modelled by running
every request to completion and by making the outcome of the timer race an
explicit boolean parameter.
-/

namespace Saphir

/-- Errors of the server core (`SaphirError` in `error.rs`).  Only the
variants that `server.rs` itself constructs or matches are distinguished
(`StackAlreadyInitialized`, `ResponseMoved`, `RequestTimeout`, `Other`);
every error coming out of the external middleware chain or error-rendering
capability is abstracted as `custom`. -/
inductive SaphirError where
  | stackAlreadyInitialized
  | responseMoved
  | requestTimeout
  | custom (code : Nat)
  | other (msg : String)
deriving DecidableEq, Repr

/-- A transport-level (hyper) request: the framing the server receives. -/
structure RawRequest where
  uri : String
  body : String
deriving DecidableEq, Repr

/-- A saphir request: the raw request plus the optional peer socket address
(`Request::new(raw, peer_addr)` in `request.rs`); addresses are abstracted
as naturals. -/
structure Request where
  raw : RawRequest
  peerAddr : Option Nat
deriving DecidableEq, Repr

/-- A response: status, headers and body.  The same shape stands for both
the saphir response and the raw (hyper) response it converts into. -/
structure Response where
  status : Nat
  headers : List (String × String)
  body : String
deriving DecidableEq, Repr

/-- Modelled from the spec: `HttpContext` (spec section 3) lives in
`http_context.rs`, which is not under `src/`.  It is the per-request scratch
structure carrying the request, the resolved route metadata and the mutable
response state; `state = some r` means the middleware chain has produced the
response `r`.  The router handle it also carries is never consulted by the
code of `server.rs`, so it is omitted here. -/
structure HttpContext where
  req : Request
  meta : Nat
  state : Option Response
deriving DecidableEq, Repr

/-- Modelled from the spec: `HttpContext::new(request, router, metadata)`
creates a fresh per-request context whose state holds no response yet. -/
def HttpContext.new (req : Request) (meta : Nat) : HttpContext :=
  ⟨req, meta, none⟩

/-- Modelled from the spec: `clone_with_empty_state` (spec section 4.3 step
3) snapshots the context with the response state emptied, for error
formatting. -/
def HttpContext.cloneWithEmptyState (c : HttpContext) : HttpContext :=
  { c with state := none }

/-- Modelled from the spec: `state.take_response()` extracts the produced
response from the context state (spec section 4.3 step 5). -/
def HttpContext.takeResponse (c : HttpContext) : Option Response :=
  c.state

/-- Modelled from the spec: the Router capability (spec section 6),
`resolve_metadata(&mut request) -> Metadata`: a pure lookup that may rewrite
the request and returns the route metadata (abstracted as a natural). -/
structure Router where
  resolveMeta : Request → Request × Nat

/-- Modelled from the spec: the Error capability (spec section 6).  The
pipeline calls `e.response_builder(builder, err_ctx).build()`, which renders
the error into a response and may itself fail; `e.log(ctx)` is recorded as
an event by the pipeline. -/
structure ErrorCap where
  responseBuilder : SaphirError → HttpContext → Except SaphirError Response

/-- The `Stack` of `server.rs` (585-588): the router plus the middleware
chain.  The chain is the external capability
`next(context) -> Result<Context, Error>`. -/
structure Stack where
  router : Router
  middlewares : HttpContext → Except SaphirError HttpContext

/-- Observable logging events emitted by the pipeline (`e.log(&err_ctx)`). -/
inductive Event where
  | logged (e : SaphirError) (errCtx : HttpContext)
deriving DecidableEq, Repr

/-- Modulus of the `AtomicU64` in-flight counter `REQUEST_FUTURE_COUNT`. -/
def u64Mod : Nat := 2 ^ 64

/-- One `REQUEST_FUTURE_COUNT.fetch_add(1, SeqCst)` (wrapping `u64`). -/
def fetchAdd (c : Nat) : Nat := (c + 1) % u64Mod

/-- One `REQUEST_FUTURE_COUNT.fetch_sub(1, SeqCst)` (wrapping `u64`). -/
def fetchSub (c : Nat) : Nat := (c + (u64Mod - 1)) % u64Mod

/-- Default request-handling timeout, `DEFAULT_REQUEST_TIMEOUT_MS` (42). -/
def DEFAULT_REQUEST_TIMEOUT_MS : Nat := 30000

/-- Default server identity, `DEFAULT_SERVER_NAME` (45). -/
def DEFAULT_SERVER_NAME : String := "Saphir"

instance exceptDecEq {ε α : Type} [DecidableEq ε] [DecidableEq α] : DecidableEq (Except ε α) :=
  fun a b =>
    match a, b with
    | .ok x, .ok y =>
      if h : x = y then .isTrue (by rw [h]) else .isFalse (fun hc => h (Except.ok.inj hc))
    | .error x, .error y =>
      if h : x = y then .isTrue (by rw [h]) else .isFalse (fun hc => h (Except.error.inj hc))
    | .ok _, .error _ => .isFalse (fun hc => Except.noConfusion hc)
    | .error _, .ok _ => .isFalse (fun hc => Except.noConfusion hc)

/-- Result of one pipeline invocation: the response-or-error, the in-flight
counter after the unconditional decrement, and the logging events. -/
structure InvokeResult where
  res : Except SaphirError Response
  counter : Nat
  events : List Event
deriving DecidableEq, Repr

/-- Steps 1-2 of the pipeline (`server.rs` 606-607 and 630-631): resolve the
route metadata, possibly rewriting the request, and build the per-request
context. -/
def Stack.buildContext (s : Stack) (req : Request) : HttpContext :=
  HttpContext.new (s.router.resolveMeta req).1 (s.router.resolveMeta req).2

/-- The body shared by `Stack::invoke` (610-614) and raced against the timer
in `Stack::invoke_with_timeout` (634-639): drive the context through the
middleware chain, then extract the produced response, failing with
`SaphirError::ResponseMoved` when no response was set. -/
def Stack.driveMiddlewares (s : Stack) (ctx : HttpContext) : Except SaphirError Response :=
  match s.middlewares ctx with
  | .ok ctx2 =>
    match ctx2.takeResponse with
    | some r => .ok r
    | none => .error SaphirError.responseMoved
  | .error e => .error e

/-- The `or_else` error path of `Stack::invoke` (615-622), textually repeated
in `Stack::invoke_with_timeout` (644-651): log the error against the error
context, render it through its own response builder, and if that rendering
itself fails, log the second error and propagate it. -/
def renderError (cap : ErrorCap) (e : SaphirError) (errCtx : HttpContext) :
    Except SaphirError Response × List Event :=
  match cap.responseBuilder e errCtx with
  | .ok r => (.ok r, [Event.logged e errCtx])
  | .error e2 => (.error e2, [Event.logged e errCtx, Event.logged e2 errCtx])

/-- `Stack::invoke` (605-625).  The in-flight counter is threaded explicitly;
the decrement `REQUEST_FUTURE_COUNT.fetch_sub(1)` (623) happens
unconditionally, whichever branch produced the result. -/
def Stack.invoke (s : Stack) (cap : ErrorCap) (req : Request) (count : Nat) : InvokeResult :=
  let ctx := Stack.buildContext s req
  let errCtx := HttpContext.cloneWithEmptyState ctx
  let pair : Except SaphirError Response × List Event :=
    match Stack.driveMiddlewares s ctx with
    | .ok r => (.ok r, [])
    | .error e => renderError cap e errCtx
  ⟨pair.1, fetchSub count, pair.2⟩

/-- `Stack::invoke_with_timeout` (627-655).  The `tokio::time::timeout` race
outcome is the explicit parameter `timedOut`.  Note the two result layers of
the source: `timeout(..)` yields `Result<Result<Response, SaphirError>,
Elapsed>`; only the outer `Err` (the elapsed timer, mapped to
`SaphirError::RequestTimeout` by `map_err`) is routed through the error
rendering, while an inner `Err` from the raced middleware work is returned
as-is by the arm `Ok(res) => res` (643).  The counter decrement (653) is
again unconditional. -/
def Stack.invoke_with_timeout (s : Stack) (cap : ErrorCap) (timedOut : Bool) (req : Request) (count : Nat) : InvokeResult :=
  let ctx := Stack.buildContext s req
  let errCtx := HttpContext.cloneWithEmptyState ctx
  let raced : Except SaphirError (Except SaphirError Response) :=
    if timedOut then Except.error SaphirError.requestTimeout
    else Except.ok (Stack.driveMiddlewares s ctx)
  let pair : Except SaphirError Response × List Event :=
    match raced with
    | .ok res => (res, [])
    | .error e => renderError cap e errCtx
  ⟨pair.1, fetchSub count, pair.2⟩

/-- Modelled from the spec: `Response::into_raw` (`response.rs`, not under
`src/`) converts the saphir response into the raw transport response.  Its
failure modes concern body and header parts that this model represents
directly, so it always succeeds here. -/
def Response.intoRaw (r : Response) : Except SaphirError Response :=
  .ok r

/-- `HeaderMap::insert`: set the header `k` to `v`, replacing any previous
value. -/
def insertHeader (hs : List (String × String)) (k v : String) : List (String × String) :=
  (k, v) :: hs.filter (fun p => p.1 != k)

/-- Look a header up (first match). -/
def getHeader (hs : List (String × String)) (k : String) : Option String :=
  (hs.find? (fun p => p.1 == k)).map Prod.snd

/-- The response post-processing repeated verbatim in `StackHandler::call`
(680-687) and `TimeoutStackHandler::call` (713-720): on success, attach the
configured server identity (the `SERVER_NAME` static) as the `Server`
response header, then convert into the raw transport response. -/
def attachServerHeader (serverName : String) (r : Except SaphirError Response) :
    Except SaphirError Response :=
  match r with
  | .ok r0 => Response.intoRaw { r0 with headers := insertHeader r0.headers ("Server") serverName }
  | .error e => .error e

/-- `StackHandler` (660-665): the per-connection hyper service for the
no-timeout configuration.  It holds the `'static` stack reference and the
connection's peer address, which `call` moves out on first use. -/
structure StackHandler where
  stack : Stack
  peerAddr : Option Nat

/-- `TimeoutStackHandler` (692-698): the per-connection hyper service when a
request timeout is configured. -/
structure TimeoutStackHandler where
  stack : Stack
  timeoutMs : Nat
  peerAddr : Option Nat

/-- Output of one `Service::call`: the raw response or error handed to
hyper, the updated handler (its `peer_addr` is consumed by the first call),
the in-flight counter, the logging events, and — as an observation for the
proofs — the saphir request that was handed to the pipeline. -/
structure CallOutput (H : Type) where
  res : Except SaphirError Response
  handler : H
  counter : Nat
  events : List Event
  builtReq : Request

/-- `StackHandler::call` (676-689): bump the in-flight counter, build the
saphir request with `self.peer_addr.take()` (so the stored peer address is
moved out and later calls on the same connection see `None`), run
`Stack::invoke`, and post-process the response.  The `serverName` parameter
stands for the `SERVER_NAME` static read at 683-685. -/
def StackHandler.call (h : StackHandler) (cap : ErrorCap) (serverName : String)
    (raw : RawRequest) (c : Nat) : CallOutput StackHandler :=
  let c1 := fetchAdd c
  let req : Request := ⟨raw, h.peerAddr⟩
  let h' : StackHandler := { h with peerAddr := none }
  let inv := Stack.invoke h.stack cap req c1
  ⟨attachServerHeader serverName inv.res, h', inv.counter, inv.events, req⟩

/-- `TimeoutStackHandler::call` (709-722): as `StackHandler::call` but
through `Stack::invoke_with_timeout`; `timedOut` is the race outcome. -/
def TimeoutStackHandler.call (h : TimeoutStackHandler) (cap : ErrorCap) (serverName : String)
    (timedOut : Bool) (raw : RawRequest) (c : Nat) : CallOutput TimeoutStackHandler :=
  let c1 := fetchAdd c
  let req : Request := ⟨raw, h.peerAddr⟩
  let h' : TimeoutStackHandler := { h with peerAddr := none }
  let inv := Stack.invoke_with_timeout h.stack cap timedOut req c1
  ⟨attachServerHeader serverName inv.res, h', inv.counter, inv.events, req⟩

/-- `parking_lot::OnceState`, the state of the `INIT_STACK` guard. -/
inductive OnceState where
  | new
  | poisoned
  | inProgress
  | done
deriving DecidableEq, Repr

/-- The process-wide statics of `server.rs` (47-54): the `STACK` and
`SERVER_NAME` `MaybeUninit` cells, the `INIT_STACK` once-guard and the
request-body byte limit also written by `write_into_static`.  `none` in
`stack`/`serverName` models still-uninitialized memory. -/
structure GlobalState where
  initStack : OnceState
  stack : Option Stack
  serverName : Option String
  requestBodyLimit : Option Nat

/-- The statics before any initialization. -/
def GlobalState.uninit : GlobalState :=
  ⟨OnceState.new, none, none, none⟩

/-- `write_into_static` (56-77): refuse with `StackAlreadyInitialized` unless
the once-guard is still `New`; otherwise write the stack, the server
identity and the body limit exactly once and hand back the installed
stack (the `'static` reference into the cell). -/
def write_into_static (g : GlobalState) (stack : Stack) (serverValue : String)
    (requestBodyMax : Option Nat) : Except SaphirError Stack × GlobalState :=
  if g.initStack ≠ OnceState.new then
    (.error SaphirError.stackAlreadyInitialized, g)
  else
    (.ok stack, ⟨OnceState.done, some stack, some serverValue, requestBodyMax⟩)

/-- Repeated calls to `write_into_static`, keeping only the evolving
statics. -/
def writeSequence (g : GlobalState) : List (Stack × String × Option Nat) → GlobalState
  | [] => g
  | c :: cs => writeSequence (write_into_static g c.1 c.2.1 c.2.2).2 cs

/-- `inject_raw` (897-910): the raw request injection entry point.  It fails
with the "Stack is not initialized" error while the once-guard is not
`Done`, leaving the statics and the counter untouched; once initialized it
bumps the counter and runs the request (with no peer address) through
`Stack::invoke`, which performs the matching decrement on every path.  The
`done`-but-empty branch is unreachable from `GlobalState.uninit`, since only
`write_into_static` produces `done` and it always fills the cell. -/
def inject_raw (g : GlobalState) (cap : ErrorCap) (raw : RawRequest) (c : Nat) :
    Except SaphirError Response × Nat × List Event :=
  if g.initStack ≠ OnceState.done then
    (.error (SaphirError.other ("Stack is not initialized")), c, [])
  else
    match g.stack with
    | none => (.error (SaphirError.other ("Stack is not initialized")), c, [])
    | some stack =>
      let inv := Stack.invoke stack cap ⟨raw, none⟩ (fetchAdd c)
      (inv.res.bind Response.intoRaw, inv.counter, inv.events)

/-- Outcome of one `Future::poll` of the shutdown controller: ready, pending
with a timer-driven wake scheduled after `delayMs` milliseconds
(`tokio::time::delay_for`), or pending until the external signal wakes the
task. -/
inductive PollOutcome where
  | ready
  | pendingWake (delayMs : Nat)
  | pendingOnSignal
deriving DecidableEq, Repr

/-- `ServerShutdown` (373-377) restricted to its observable state: the
configured graceful flag and the shared `SeverShutdownState.draining`
atomic. -/
structure ServerShutdown where
  graceful : Bool
  draining : Bool
deriving DecidableEq, Repr

/-- `ServerShutdown::poll` (400-425).  `signalReady` is whether the
caller-supplied shutdown signal has fired, `count` the current value of
`REQUEST_FUTURE_COUNT`.  While draining: resolve when the counter is zero,
otherwise schedule a re-poll in 100 ms.  Before draining: when the signal
fires, a non-graceful shutdown resolves immediately (the counter is never
read), a graceful one stores `true` into the shared flag and schedules a
wake in one second. -/
def ServerShutdown.poll (sd : ServerShutdown) (signalReady : Bool) (count : Nat) :
    PollOutcome × ServerShutdown :=
  if sd.draining then
    if count = 0 then (.ready, sd)
    else (.pendingWake 100, sd)
  else if signalReady then
    if sd.graceful = false then (.ready, sd)
    else (.pendingWake 1000, { sd with draining := true })
  else (.pendingOnSignal, sd)

/-- Observable events of `Server::run`: the listener socket getting bound,
a connection spawned onto its own task and served, an accept error logged
and skipped, and a connection dropped because draining started. -/
inductive RunEvent where
  | socketBound
  | connServed (id : Nat)
  | acceptErrorLogged
  | connSkippedDraining
deriving DecidableEq, Repr

/-- One iteration of the accept loop body (536-553 and 558-575): when the
shared draining flag is not set, spawn an independent handler task for an ok
socket and log-and-continue on an accept error; when it is set, drop the
connection without serving it. -/
def acceptIteration (draining : Bool) (sock : Except Unit Nat) : List RunEvent :=
  if draining = false then
    match sock with
    | .ok id => [RunEvent.connServed id]
    | .error _ => [RunEvent.acceptErrorLogged]
  else
    [RunEvent.connSkippedDraining]

/-- The accept loop over a trace of incoming sockets, each paired with the
value the shared draining flag has at the moment that accept is processed
(the flag is flipped concurrently by the `ServerShutdown` future). -/
def acceptLoop : List (Bool × Except Unit Nat) → List RunEvent
  | [] => []
  | p :: rest => acceptIteration p.1 p.2 ++ acceptLoop rest

/-- Using feature `https`: certificate or key material, by path or inline
(`SslConfig`, 84-90). -/
inductive SslConfig where
  | filePath (s : String)
  | fileData (s : String)
deriving DecidableEq, Repr

/-- `ListenerConfig` (248-257): the parts of the listener configuration that
`Server::run` consults. -/
structure ListenerConfig where
  requestTimeoutMs : Option Nat
  requestBodyMax : Option Nat
  serverName : String
  certConfig : Option SslConfig
  keyConfig : Option SslConfig
  graceful : Bool
deriving DecidableEq, Repr

/-- Modelled from the spec: `HeaderValue::from_str` on the server-identity
string (the "bad server-identity encoding" startup failure, spec section
6).  Valid header-value characters are horizontal tab and the visible or
obs-text bytes, excluding DEL. -/
def headerValueValid (s : String) : Bool :=
  s.toList.all fun ch =>
    (ch.toNat == 9) || (decide (32 ≤ ch.toNat) && (ch.toNat != 127) && decide (ch.toNat ≤ 255))

/-- Classification of the `ssl_config()` match in `Server::run` (494-521):
both materials configured selects the TLS acceptor, exactly one
(`cert_config.xor(key_config).is_some()`, 513) is the invalid partial
configuration, neither selects the plain listener. -/
inductive TlsMode where
  | tls
  | invalidPartial
  | plain
deriving DecidableEq, Repr

/-- The decision itself, mirroring the match-arm order of 495-520. -/
def tlsMode (certConfig keyConfig : Option SslConfig) : TlsMode :=
  match certConfig, keyConfig with
  | some _, some _ => TlsMode.tls
  | certC, keyC =>
    if Bool.xor certC.isSome keyC.isSome then TlsMode.invalidPartial else TlsMode.plain

/-- `Server::run` (478-581) with the `https` feature, as its startup
sequence followed by the accept loop.  In source order: build the identity
header value from the server name (480), install the statics via
`write_into_static` (483), bind the listener socket (487), then classify the
TLS configuration (494-521) — the partial configuration error is returned
only after the socket was bound — and finally run the accept loop raced
against the shutdown future.  External outcomes are parameters: `bindOk` is
whether `TcpListener::bind` succeeds, and `incoming` is the accepted-socket
trace consumed by `acceptLoop`. -/
def Server.run (g : GlobalState) (stack : Stack) (cfg : ListenerConfig) (bindOk : Bool)
    (incoming : List (Bool × Except Unit Nat)) :
    List RunEvent × Except SaphirError Unit × GlobalState :=
  if headerValueValid cfg.serverName = false then
    ([], .error (SaphirError.other ("InvalidHeaderValue")), g)
  else
    match write_into_static g stack cfg.serverName cfg.requestBodyMax with
    | (.error e, g') => ([], .error e, g')
    | (.ok _, g') =>
      if bindOk = false then
        ([], .error (SaphirError.other ("IoError")), g')
      else
        match tlsMode cfg.certConfig cfg.keyConfig with
        | TlsMode.invalidPartial =>
          ([RunEvent.socketBound],
            .error (SaphirError.other ("Invalid SSL configuration, missing cert or key")), g')
        | _ => (RunEvent.socketBound :: acceptLoop incoming, .ok (), g')

/-- One complete request through one of the three entry points that touch
the in-flight counter: the plain handler, the timeout handler, or
`inject_raw` against the statics `g`. -/
inductive RequestJob where
  | plain (raw : RawRequest)
  | timed (timedOut : Bool) (raw : RawRequest)
  | inject (raw : RawRequest)

/-- Counter effect of running one `RequestJob` to completion. -/
def runJobCounter (s : Stack) (cap : ErrorCap) (g : GlobalState) (job : RequestJob) (c : Nat) : Nat :=
  match job with
  | .plain raw => (StackHandler.call ⟨s, some 0⟩ cap DEFAULT_SERVER_NAME raw c).counter
  | .timed timedOut raw =>
    (TimeoutStackHandler.call ⟨s, DEFAULT_REQUEST_TIMEOUT_MS, some 0⟩ cap DEFAULT_SERVER_NAME timedOut raw c).counter
  | .inject raw => (inject_raw g cap raw c).2.1

/-- Counter effect of a sequence of completed requests. -/
def runJobsCounter (s : Stack) (cap : ErrorCap) (g : GlobalState) :
    List RequestJob → Nat → Nat
  | [], c => c
  | job :: jobs, c => runJobsCounter s cap g jobs (runJobCounter s cap g job c)

/-- A router that rewrites nothing and resolves every request to metadata
`0`, for concrete evaluations. -/
def demoRouter : Router :=
  ⟨fun r => (r, 0)⟩

/-- An error capability whose rendering always succeeds with a 500. -/
def demoCapOk : ErrorCap :=
  ⟨fun _ _ => .ok ⟨500, [], "error"⟩⟩

/-- A concrete raw request. -/
def demoRaw : RawRequest :=
  ⟨"/", ""⟩

/-- A concrete saphir request with no peer address. -/
def demoReq : Request :=
  ⟨demoRaw, none⟩

/-- A stack whose middleware chain terminates every request with a 200. -/
def okStack : Stack :=
  ⟨demoRouter, fun ctx => .ok { ctx with state := some ⟨200, [], "ok"⟩ }⟩

/-- A stack whose middleware chain finishes without setting any response. -/
def dropStack : Stack :=
  ⟨demoRouter, fun ctx => .ok { ctx with state := none }⟩

/-- A stack whose middleware chain fails with an opaque middleware error. -/
def errStack : Stack :=
  ⟨demoRouter, fun _ => .error (SaphirError.custom 1)⟩

/-- A partial TLS configuration: certificate configured, key missing. -/
def demoCfgPartialTls : ListenerConfig :=
  { requestTimeoutMs := some DEFAULT_REQUEST_TIMEOUT_MS
    requestBodyMax := none
    serverName := DEFAULT_SERVER_NAME
    certConfig := some (SslConfig.filePath ("cert.pem"))
    keyConfig := none
    graceful := false }

theorem runJobCounter_zero (s : Stack) (cap : ErrorCap) (g : GlobalState) (job : RequestJob) :
    runJobCounter s cap g job 0 = 0 := by
  cases job with
  | plain raw => rfl
  | timed timedOut raw => rfl
  | inject raw =>
    obtain ⟨is, st, sn, bl⟩ := g
    cases is <;> cases st <;> rfl

theorem runJobsCounter_zero (s : Stack) (cap : ErrorCap) (g : GlobalState) :
    ∀ jobs : List RequestJob, runJobsCounter s cap g jobs 0 = 0 := by
  intro jobs
  induction jobs with
  | nil => rfl
  | cons job jobs ih =>
    show runJobsCounter s cap g jobs (runJobCounter s cap g job 0) = 0
    rw [runJobCounter_zero]
    exact ih

theorem write_into_static_done (g : GlobalState) (h : g.initStack = OnceState.done)
    (stack : Stack) (v : String) (m : Option Nat) :
    write_into_static g stack v m = (.error SaphirError.stackAlreadyInitialized, g) := by
  unfold write_into_static
  rw [h]
  simp

theorem writeSequence_done (calls : List (Stack × String × Option Nat)) :
    ∀ g : GlobalState, g.initStack = OnceState.done → writeSequence g calls = g := by
  induction calls with
  | nil => intro g _; rfl
  | cons c cs ih =>
    intro g h
    show writeSequence (write_into_static g c.1 c.2.1 c.2.2).2 cs = g
    rw [write_into_static_done g h]
    exact ih g h

/-- C1: every request that increments the in-flight counter (through
`StackHandler::call`, `TimeoutStackHandler::call` or `inject_raw`)
decrements it exactly once on every exit path — the first two conjuncts show
that `Stack::invoke` and `Stack::invoke_with_timeout` end in exactly one
`fetch_sub`, whatever the middleware chain, the rendering capability and the
timer do — so after any sequence of completed requests the counter is back
at exactly 0 (third conjunct). -/
theorem c1_counter_balanced :
    ∀ (s : Stack) (cap : ErrorCap) (g : GlobalState) (req : Request) (c : Nat)
      (timedOut : Bool) (jobs : List RequestJob),
    (Stack.invoke s cap req c).counter = fetchSub c
    ∧ (Stack.invoke_with_timeout s cap timedOut req c).counter = fetchSub c
    ∧ runJobsCounter s cap g jobs 0 = 0 := by
  intro s cap g req c timedOut jobs
  exact ⟨rfl, rfl, runJobsCounter_zero s cap g jobs⟩

/-- C2: starting from uninitialized statics, the first call to
`write_into_static` succeeds and hands back exactly the stack it installed;
any second call fails with the distinct `StackAlreadyInitialized` error and
leaves the first-installed stack and server identity untouched, as does any
further sequence of calls. -/
theorem c2_singleton_init :
    ∀ (stack1 : Stack) (v1 : String) (m1 : Option Nat) (stack2 : Stack) (v2 : String)
      (m2 : Option Nat) (calls : List (Stack × String × Option Nat)),
    (write_into_static GlobalState.uninit stack1 v1 m1).1 = .ok stack1
    ∧ (write_into_static GlobalState.uninit stack1 v1 m1).2.stack = some stack1
    ∧ (write_into_static GlobalState.uninit stack1 v1 m1).2.serverName = some v1
    ∧ write_into_static (write_into_static GlobalState.uninit stack1 v1 m1).2 stack2 v2 m2 =
        (.error SaphirError.stackAlreadyInitialized,
          (write_into_static GlobalState.uninit stack1 v1 m1).2)
    ∧ writeSequence (write_into_static GlobalState.uninit stack1 v1 m1).2 calls =
        (write_into_static GlobalState.uninit stack1 v1 m1).2 := by
  intro stack1 v1 m1 stack2 v2 m2 calls
  refine ⟨rfl, rfl, rfl, ?_, ?_⟩
  · exact write_into_static_done _ rfl stack2 v2 m2
  · exact writeSequence_done calls _ rfl

/-- C3 counterexample: `invoke_with_timeout` is not identical to `invoke` on
failures of the raced steps.  With a middleware chain that fails and a timer
that does not elapse, `invoke` renders the error into a 500 response through
the error capability, while `invoke_with_timeout` returns the raw middleware
error without the rendering path (arm `Ok(res) => res`, 643), so the two
results differ. -/
theorem c3_counterexample :
    (Stack.invoke_with_timeout errStack demoCapOk false demoReq 1).res =
      .error (SaphirError.custom 1)
    ∧ (Stack.invoke errStack demoCapOk demoReq 1).res = .ok ⟨500, [], "error"⟩
    ∧ Stack.invoke_with_timeout errStack demoCapOk false demoReq 1 ≠
        Stack.invoke errStack demoCapOk demoReq 1 := by
  refine ⟨rfl, rfl, ?_⟩
  intro h
  exact absurd (congrArg InvokeResult.res h) (by decide)

/-- C3 (amended): `invoke_with_timeout` resolves the route metadata and
builds the contexts exactly as `invoke` does, and races the middleware drive
plus response extraction against the timer.  If the timer elapses first, the
result is the distinguished `RequestTimeout` error logged against the error
context and rendered through the error's response builder (first conjunct).
If the raced work finishes first its result is returned as-is — so the two
operations agree whenever that work succeeds (third conjunct), but a failure
of the raced steps themselves is returned unrendered, unlike `invoke`
(second conjunct and the counterexample). -/
theorem c3_amended_timeout :
    ∀ (s : Stack) (cap : ErrorCap) (req : Request) (c : Nat),
    Stack.invoke_with_timeout s cap true req c =
      ⟨(renderError cap SaphirError.requestTimeout
          (HttpContext.cloneWithEmptyState (Stack.buildContext s req))).1,
        fetchSub c,
        (renderError cap SaphirError.requestTimeout
          (HttpContext.cloneWithEmptyState (Stack.buildContext s req))).2⟩
    ∧ Stack.invoke_with_timeout s cap false req c =
        ⟨Stack.driveMiddlewares s (Stack.buildContext s req), fetchSub c, []⟩
    ∧ (∀ r : Response,
        Stack.driveMiddlewares s (Stack.buildContext s req) = .ok r →
        Stack.invoke_with_timeout s cap false req c = Stack.invoke s cap req c) := by
  intro s cap req c
  refine ⟨rfl, rfl, ?_⟩
  intro r hdrive
  simp only [Stack.invoke_with_timeout, Stack.invoke, hdrive]
  rfl

/-- C3 witness for the amended theorem: on a stack whose middleware chain
succeeds, the timeout variant with a non-elapsed timer agrees with plain
`invoke`. -/
theorem c3_amended_timeout_witness :
    Stack.invoke_with_timeout okStack demoCapOk false demoReq 2 =
      Stack.invoke okStack demoCapOk demoReq 2 :=
  (c3_amended_timeout okStack demoCapOk demoReq 2).2.2 ⟨200, [], "ok"⟩ rfl

theorem tlsMode_partial (certC keyC : Option SslConfig)
    (h : Bool.xor certC.isSome keyC.isSome = true) :
    tlsMode certC keyC = TlsMode.invalidPartial := by
  cases certC <;> cases keyC <;> simp_all [tlsMode]

/-- C4 counterexample: with a certificate configured but no key,
`Server::run` does return the invalid-SSL configuration error — but only
after the listener socket has been bound (`TcpListener::bind`, 487, runs
before the `ssl_config()` match, 494-521), so the claim "before any socket
is bound" is false on the code. -/
theorem c4_counterexample :
    (Server.run GlobalState.uninit okStack demoCfgPartialTls true []).2.1 =
      .error (SaphirError.other ("Invalid SSL configuration, missing cert or key"))
    ∧ RunEvent.socketBound ∈ (Server.run GlobalState.uninit okStack demoCfgPartialTls true []).1 := by
  exact ⟨rfl, by decide⟩

/-- C4 (amended): if exactly one of the TLS certificate and key is
configured, `Server::run` returns an error and never serves any connection
(first two conjuncts); when the earlier startup steps succeed (valid
identity header, statics not yet initialized, bind succeeds) that error is
precisely the invalid-SSL configuration error, returned after the listener
socket was bound but before any connection is accepted or served (third
conjunct: the event trace is exactly the socket binding). -/
theorem c4_partial_tls :
    ∀ (g : GlobalState) (stack : Stack) (cfg : ListenerConfig) (bindOk : Bool)
      (incoming : List (Bool × Except Unit Nat)),
    Bool.xor cfg.certConfig.isSome cfg.keyConfig.isSome = true →
    (∃ e, (Server.run g stack cfg bindOk incoming).2.1 = .error e)
    ∧ (∀ id, RunEvent.connServed id ∉ (Server.run g stack cfg bindOk incoming).1)
    ∧ (headerValueValid cfg.serverName = true → g.initStack = OnceState.new → bindOk = true →
        Server.run g stack cfg bindOk incoming =
          ([RunEvent.socketBound],
            .error (SaphirError.other ("Invalid SSL configuration, missing cert or key")),
            (write_into_static g stack cfg.serverName cfg.requestBodyMax).2)) := by
  intro g stack cfg bindOk incoming hxor
  have hmode := tlsMode_partial cfg.certConfig cfg.keyConfig hxor
  by_cases hname : headerValueValid cfg.serverName = false
  · refine ⟨⟨SaphirError.other ("InvalidHeaderValue"), ?_⟩, ?_, ?_⟩
    · simp [Server.run, hname]
    · intro id; simp [Server.run, hname]
    · intro hv; rw [hv] at hname; cases hname
  · have hname' : headerValueValid cfg.serverName = true := by
      cases hval : headerValueValid cfg.serverName
      · exact absurd hval hname
      · rfl
    by_cases hg : g.initStack = OnceState.new
    · have hw : write_into_static g stack cfg.serverName cfg.requestBodyMax =
          (.ok stack, ⟨OnceState.done, some stack, some cfg.serverName, cfg.requestBodyMax⟩) := by
        unfold write_into_static
        rw [hg]
        simp
      cases hb : bindOk
      · refine ⟨⟨SaphirError.other ("IoError"), ?_⟩, ?_, ?_⟩
        · simp [Server.run, hname', hw]
        · intro id; simp [Server.run, hname', hw]
        · intro _ _ hbt; exact absurd hbt (by decide)
      · refine ⟨⟨SaphirError.other ("Invalid SSL configuration, missing cert or key"), ?_⟩, ?_, ?_⟩
        · simp [Server.run, hname', hw, hmode]
        · intro id; simp [Server.run, hname', hw, hmode]
        · intro _ _ _; simp [Server.run, hname', hw, hmode]
    · have hw : (write_into_static g stack cfg.serverName cfg.requestBodyMax).1 =
          .error SaphirError.stackAlreadyInitialized := by
        unfold write_into_static
        simp [hg]
      refine ⟨⟨SaphirError.stackAlreadyInitialized, ?_⟩, ?_, ?_⟩
      · simp only [Server.run, hname']
        unfold write_into_static
        simp [hg]
      · intro id
        simp only [Server.run, hname']
        unfold write_into_static
        simp [hg]
      · intro _ hgn; exact absurd hgn hg

/-- C4 witness for the amended theorem, at the concrete partial
configuration. -/
theorem c4_partial_tls_witness :
    Server.run GlobalState.uninit okStack demoCfgPartialTls true [] =
      ([RunEvent.socketBound],
        .error (SaphirError.other ("Invalid SSL configuration, missing cert or key")),
        (write_into_static GlobalState.uninit okStack demoCfgPartialTls.serverName
          demoCfgPartialTls.requestBodyMax).2) :=
  (c4_partial_tls GlobalState.uninit okStack demoCfgPartialTls true [] (by decide)).2.2
    (by decide) rfl rfl

/-- C5: the accept-loop gate and the draining flag.  First conjunct: one
poll of the shutdown future leaves the flag at `draining || (signalReady &&
graceful)`, so the flag only ever transitions false to true and never
reverses.  Second conjunct: a connection processed while the flag is set is
dropped without spawning a handler, whether the socket was accepted cleanly
or not.  Third conjunct: a connection admitted while the flag is clear is
spawned and served — serving is the total handler function, so every
admitted connection runs to completion in this model.  Fourth conjunct: an
admitted connection stays in the served trace whatever the flag later does
to the rest of the incoming stream. -/
theorem c5_draining_gate :
    ∀ (sd : ServerShutdown) (signalReady : Bool) (count : Nat) (sock : Except Unit Nat)
      (id : Nat) (rest : List (Bool × Except Unit Nat)),
    (sd.poll signalReady count).2.draining = (sd.draining || (signalReady && sd.graceful))
    ∧ acceptIteration true sock = [RunEvent.connSkippedDraining]
    ∧ acceptIteration false (.ok id) = [RunEvent.connServed id]
    ∧ acceptLoop ((false, Except.ok id) :: rest) = RunEvent.connServed id :: acceptLoop rest := by
  intro sd signalReady count sock id rest
  refine ⟨?_, rfl, rfl, rfl⟩
  obtain ⟨g, d⟩ := sd
  cases d <;> cases signalReady <;> cases g <;> cases count <;> rfl

/-- C6: `ServerShutdown::poll`.  When the signal fires in non-graceful mode
the future resolves immediately, for every value of the in-flight counter —
the counter is never consulted (first conjunct).  In graceful mode it stores
`true` into the shared draining flag and stays pending (second conjunct);
thereafter it resolves exactly when the counter reaches zero (third
conjunct) and otherwise re-polls the counter on a fixed 100 ms interval
(fourth conjunct). -/
theorem c6_shutdown_poll :
    ∀ (graceful signalReady : Bool) (count : Nat),
    ServerShutdown.poll ⟨false, false⟩ true count = (PollOutcome.ready, ⟨false, false⟩)
    ∧ ServerShutdown.poll ⟨true, false⟩ true count = (PollOutcome.pendingWake 1000, ⟨true, true⟩)
    ∧ ServerShutdown.poll ⟨graceful, true⟩ signalReady 0 = (PollOutcome.ready, ⟨graceful, true⟩)
    ∧ ServerShutdown.poll ⟨graceful, true⟩ signalReady (count + 1) =
        (PollOutcome.pendingWake 100, ⟨graceful, true⟩) := by
  intro graceful signalReady count
  exact ⟨rfl, rfl, rfl, rfl⟩

/-- C7: when the middleware chain completes successfully but leaves no
response in the context state, `Stack::invoke` fails with the distinguished
`SaphirError::ResponseMoved` and routes it through the error-rendering path
(logging it against the error context and asking the error for its own
response rendering) instead of dropping it. -/
theorem c7_missing_response :
    ∀ (s : Stack) (cap : ErrorCap) (req : Request) (c : Nat) (ctx2 : HttpContext),
    s.middlewares (Stack.buildContext s req) = .ok ctx2 →
    ctx2.state = none →
    Stack.invoke s cap req c =
      ⟨(renderError cap SaphirError.responseMoved
          (HttpContext.cloneWithEmptyState (Stack.buildContext s req))).1,
        fetchSub c,
        (renderError cap SaphirError.responseMoved
          (HttpContext.cloneWithEmptyState (Stack.buildContext s req))).2⟩ := by
  intro s cap req c ctx2 hmid hstate
  have hdrive : Stack.driveMiddlewares s (Stack.buildContext s req) =
      .error SaphirError.responseMoved := by
    unfold Stack.driveMiddlewares
    rw [hmid]
    simp [HttpContext.takeResponse, hstate]
  simp only [Stack.invoke, hdrive]

/-- C7 witness: a concrete middleware chain that finishes without setting a
response. -/
theorem c7_missing_response_witness :
    Stack.invoke dropStack demoCapOk demoReq 5 =
      ⟨(renderError demoCapOk SaphirError.responseMoved
          (HttpContext.cloneWithEmptyState (Stack.buildContext dropStack demoReq))).1,
        fetchSub 5,
        (renderError demoCapOk SaphirError.responseMoved
          (HttpContext.cloneWithEmptyState (Stack.buildContext dropStack demoReq))).2⟩ :=
  c7_missing_response dropStack demoCapOk demoReq 5 ⟨demoReq, 0, none⟩ rfl rfl

theorem getHeader_insertHeader (hs : List (String × String)) (k v : String) :
    getHeader (insertHeader hs k v) k = some v := by
  simp [getHeader, insertHeader]

theorem attachServerHeader_ok (serverName : String) (r : Except SaphirError Response)
    (out : Response) (h : attachServerHeader serverName r = .ok out) :
    getHeader out.headers ("Server") = some serverName := by
  cases r with
  | ok r0 =>
    simp only [attachServerHeader, Response.intoRaw, Except.ok.injEq] at h
    rw [← h]
    exact getHeader_insertHeader r0.headers ("Server") serverName
  | error e => exact absurd h (by simp [attachServerHeader])

/-- C8: every response a request handler hands back to the transport — from
`StackHandler::call` and `TimeoutStackHandler::call` alike, whether the
pipeline succeeded or rendered an error into a response — carries the
configured server identity (the `SERVER_NAME` static of the Singleton
Runtime State) as its `Server` header. -/
theorem c8_server_header :
    ∀ (h : StackHandler) (ht : TimeoutStackHandler) (cap : ErrorCap) (serverName : String)
      (timedOut : Bool) (raw : RawRequest) (c c' : Nat) (out outT : Response),
    ((StackHandler.call h cap serverName raw c).res = .ok out →
      getHeader out.headers ("Server") = some serverName)
    ∧ ((TimeoutStackHandler.call ht cap serverName timedOut raw c').res = .ok outT →
      getHeader outT.headers ("Server") = some serverName) := by
  intro h ht cap serverName timedOut raw c c' out outT
  constructor
  · intro hres
    exact attachServerHeader_ok serverName (Stack.invoke h.stack cap ⟨raw, h.peerAddr⟩ (fetchAdd c)).res out hres
  · intro hres
    exact attachServerHeader_ok serverName
      (Stack.invoke_with_timeout ht.stack cap timedOut ⟨raw, ht.peerAddr⟩ (fetchAdd c')).res outT hres

/-- C8 witness: concrete calls of both handlers whose responses carry the
`Server: Saphir` header. -/
theorem c8_server_header_witness :
    getHeader (Response.mk 200 [(("Server"), ("Saphir"))] ("ok")).headers ("Server") =
      some DEFAULT_SERVER_NAME :=
  (c8_server_header ⟨okStack, some 7⟩ ⟨okStack, 50, some 7⟩ demoCapOk DEFAULT_SERVER_NAME false
      demoRaw 0 0 ⟨200, [(("Server"), ("Saphir"))], "ok"⟩ ⟨200, [(("Server"), ("Saphir"))], "ok"⟩).1
    (by decide)

/-- C9: `inject_raw` fails with the "Stack is not initialized" error — and
does not touch the in-flight counter, log anything, or write the statics
(it only ever reads them) — whenever the Singleton Runtime State is not yet
initialized (first conjunct, for every non-`Done` guard state); after a
successful initialization it bumps the counter and runs the request through
`Stack::invoke` on the installed stack, handing back its outcome, counter
and logs (second conjunct). -/
theorem c9_inject_requires_init :
    ∀ (g : GlobalState) (cap : ErrorCap) (raw : RawRequest) (c : Nat) (stack : Stack)
      (v : String) (m : Option Nat),
    (g.initStack ≠ OnceState.done →
      inject_raw g cap raw c = (.error (SaphirError.other ("Stack is not initialized")), c, []))
    ∧ inject_raw (write_into_static GlobalState.uninit stack v m).2 cap raw c =
        ((Stack.invoke stack cap ⟨raw, none⟩ (fetchAdd c)).res.bind Response.intoRaw,
          (Stack.invoke stack cap ⟨raw, none⟩ (fetchAdd c)).counter,
          (Stack.invoke stack cap ⟨raw, none⟩ (fetchAdd c)).events) := by
  intro g cap raw c stack v m
  constructor
  · intro hg
    unfold inject_raw
    simp [hg]
  · rfl

/-- C9 witness: before any initialization, injection is refused with the
counter untouched; the second conjunct is also instantiated concretely. -/
theorem c9_inject_requires_init_witness :
    inject_raw GlobalState.uninit demoCapOk demoRaw 3 =
      (.error (SaphirError.other ("Stack is not initialized")), 3, []) :=
  (c9_inject_requires_init GlobalState.uninit demoCapOk demoRaw 3 okStack DEFAULT_SERVER_NAME
      none).1 (by decide)

/-- C10: on a connection serving several pipelined requests, only the first
`call` builds its request with the connection's peer address: the handler
takes (moves out) its stored `peer_addr`, so the updated handler holds
`none` and every subsequent request on the same connection is built with no
peer address — for the plain and the timeout handler alike. -/
theorem c10_peer_addr_once :
    ∀ (h : StackHandler) (ht : TimeoutStackHandler) (cap : ErrorCap) (serverName : String)
      (raw1 raw2 : RawRequest) (c1 c2 : Nat) (t1 t2 : Bool),
    (StackHandler.call h cap serverName raw1 c1).builtReq.peerAddr = h.peerAddr
    ∧ (StackHandler.call h cap serverName raw1 c1).handler.peerAddr = none
    ∧ (StackHandler.call (StackHandler.call h cap serverName raw1 c1).handler cap serverName
        raw2 c2).builtReq.peerAddr = none
    ∧ (TimeoutStackHandler.call ht cap serverName t1 raw1 c1).builtReq.peerAddr = ht.peerAddr
    ∧ (TimeoutStackHandler.call ht cap serverName t1 raw1 c1).handler.peerAddr = none
    ∧ (TimeoutStackHandler.call (TimeoutStackHandler.call ht cap serverName t1 raw1 c1).handler
        cap serverName t2 raw2 c2).builtReq.peerAddr = none := by
  intro h ht cap serverName raw1 raw2 c1 c2 t1 t2
  exact ⟨rfl, rfl, rfl, rfl, rfl, rfl⟩

end Saphir
